import Mathlib

/-!
Shallow embedding of the FinSim banking application (browser-only banking
simulator).  The JavaScript data layer (`User`, `Account`, `Transaction`,
`DataManager`), the authentication layer (`AuthManager`) and the dashboard
fee helper are translated into executable Lean definitions.  JavaScript
numbers used for money are modelled as rationals (`Rat`); JavaScript
strings are modelled as Lean `String`s; nondeterministic generated data
(fresh ids, timestamps, references, random IBAN digits) is passed in
explicitly as parameters.  The persisted key-value store (JSON arrays under
the keys `users`, `accounts`, `transactions`, plus `currentUser`) is
modelled as a `Store` structure; `storage.get`/`storage.set` become field
reads/updates, which is faithful because the JS wrapper round-trips values
through JSON on every access.
-/

namespace FinSim

/-- JS `str.replace(/\s/g, '')`: remove every whitespace character. -/
def stripSpaces (s : String) : String :=
  String.mk (s.toList.filter (fun c => !c.isWhitespace))

/-- JS `value || null` applied to a string: the empty string is falsy. -/
def jsOrNull (s : String) : Option String :=
  if s = "" then none else some s

/-- Character-level prefix test. -/
def prefixEq : List Char → List Char → Bool
  | [], _ => true
  | _ :: _, [] => false
  | p :: ps, c :: cs => if c = p then prefixEq ps cs else false

/-- JS `str.startsWith(pre)`. -/
def jsStartsWith (s pre : String) : Bool :=
  prefixEq pre.toList s.toList

/-- JS `str.trim()`: strip whitespace from both ends. -/
def jsTrim (s : String) : String :=
  String.mk
    (((s.toList.dropWhile Char.isWhitespace).reverse.dropWhile
      Char.isWhitespace).reverse)

/-- Accumulator worker for splitting a character list at spaces. -/
def splitSpacesAux : List Char → List Char → List String
  | [], acc => [String.mk acc.reverse]
  | c :: cs, acc =>
    if c = ' ' then String.mk acc.reverse :: splitSpacesAux cs []
    else splitSpacesAux cs (c :: acc)

/-- JS `str.split(' ')`. -/
def jsSplitSpace (s : String) : List String :=
  splitSpacesAux s.toList []

/-- User entity, fields as serialized by `User.toJSON`. -/
structure User where
  id : String
  email : String
  password : String
  firstName : String
  lastName : String
  role : String
  createdAt : String
  lastLogin : Option String
  isActive : Bool
deriving Repr, DecidableEq

/-- JS `get fullName() { return firstName + ' ' + lastName }`. -/
def User.fullName (u : User) : String :=
  u.firstName ++ " " ++ u.lastName

/-- Account entity, fields as serialized by `Account.toJSON`. -/
structure Account where
  id : String
  userId : String
  accountNumber : String
  iban : String
  type : String
  balance : Rat
  currency : String
  createdAt : String
  isActive : Bool
  overdraftProtection : Bool
deriving Repr, DecidableEq

/-- Transaction entity, fields as serialized by `Transaction.toJSON`. -/
structure Transaction where
  id : String
  accountId : String
  recipientIBAN : Option String
  recipientName : Option String
  type : String
  amount : Rat
  description : String
  category : String
  status : String
  timestamp : String
  recipientAccountId : Option String
  fraudAlerts : List String
  reference : String
deriving Repr, DecidableEq

/-- The persisted key-value store: the three entity collections plus the
`currentUser` session snapshot. -/
structure Store where
  users : List User
  accounts : List Account
  transactions : List Transaction
  currentUser : Option User
deriving Repr, DecidableEq

/-- `Account.hasSufficientFunds(amount)`: `this.balance >= amount`. -/
def Account.hasSufficientFunds (a : Account) (amount : Rat) : Bool :=
  a.balance ≥ amount

/-- `Account.deposit(amount)`: throws on a non-positive amount, otherwise
adds the amount to the balance. -/
def Account.deposit (a : Account) (amount : Rat) : Except String Account :=
  if amount ≤ 0 then .error "Deposit amount must be positive"
  else .ok { a with balance := a.balance + amount }

/-- `Account.withdraw(amount)`: throws on a non-positive amount, then on
insufficient funds, otherwise subtracts the amount from the balance. -/
def Account.withdraw (a : Account) (amount : Rat) : Except String Account :=
  if amount ≤ 0 then .error "Withdrawal amount must be positive"
  else if !(a.hasSufficientFunds amount) then .error "Insufficient funds"
  else .ok { a with balance := a.balance - amount }

/-- `Account.maskedIBAN`: split the IBAN at spaces, and when there are at
least six segments keep only the last one visible. -/
def Account.maskedIBAN (a : Account) : String :=
  let parts := jsSplitSpace a.iban
  if parts.length ≥ 6 then "FS** **** **** **** **** " ++ parts.getD 5 ""
  else a.iban

/-- `.{1,4}` chunking used by `accountNumber.match(/.{1,4}/g)`. -/
def chunks4 : List Char → List (List Char)
  | [] => []
  | c1 :: c2 :: c3 :: c4 :: rest => [c1, c2, c3, c4] :: chunks4 rest
  | short => [short]

/-- JS `String.prototype.padStart(n, '0')`. -/
def padStartZero (n : Nat) (s : String) : String :=
  String.mk (List.replicate (n - s.length) '0') ++ s

/-- `Account.generateIBAN()`.  `randDigits` stands for the decimal-fraction
digits of `Math.random().toString()` (everything after the leading `0.`), of
which `substr(2, 12)` keeps the first twelve; the result is padded to twelve
characters and grouped in fours after the fixed
country/check/bank/branch prefix. -/
def generateIBAN (randDigits : String) : String :=
  let accountNumber := padStartZero 12 (String.mk (randDigits.toList.take 12))
  "FS" ++ "00" ++ " " ++ "FINS" ++ "0010" ++ " " ++
    String.intercalate " " ((chunks4 accountNumber.toList).map String.mk)

/-- Consume a literal character sequence, as the regex literals do. -/
def matchLit : List Char → List Char → Option (List Char)
  | [], cs => some cs
  | _ :: _, [] => none
  | l :: ls, c :: cs => if c = l then matchLit ls cs else none

/-- Consume exactly `n` characters from the class `[0-9]`. -/
def matchDigits : Nat → List Char → Option (List Char)
  | 0, cs => some cs
  | _ + 1, [] => none
  | n + 1, c :: cs => if c.isDigit then matchDigits n cs else none

/-- The anchored regex
`^FS[0-9]{2} FINS[0-9]{4} [0-9]{4} [0-9]{4} [0-9]{4} [0-9]{4}$`
transliterated as a character-list matcher. -/
def ibanRegexTest (cs : List Char) : Bool :=
  (Option.map List.isEmpty
    (matchLit ['F', 'S'] cs |>.bind (matchDigits 2) |>.bind
      (matchLit [' ', 'F', 'I', 'N', 'S']) |>.bind (matchDigits 4) |>.bind
      (matchLit [' ']) |>.bind (matchDigits 4) |>.bind
      (matchLit [' ']) |>.bind (matchDigits 4) |>.bind
      (matchLit [' ']) |>.bind (matchDigits 4) |>.bind
      (matchLit [' ']) |>.bind (matchDigits 4))).getD false

/-- `Account.isValidIBAN(iban)`: trim, then test the fixed pattern. -/
def isValidIBAN (iban : String) : Bool :=
  ibanRegexTest (jsTrim iban).toList

/-- `DataManager.getUserById(id)`. -/
def getUserById (s : Store) (id : String) : Option User :=
  s.users.find? (fun u => u.id == id)

/-- `DataManager.getUserByEmail(email)`: exact `===` comparison. -/
def getUserByEmail (s : Store) (email : String) : Option User :=
  s.users.find? (fun u => u.email == email)

/-- `DataManager.getAccountById(id)`. -/
def getAccountById (s : Store) (id : String) : Option Account :=
  s.accounts.find? (fun a => a.id == id)

/-- `DataManager.getAccountByIBAN(iban)`: first account whose
whitespace-stripped IBAN equals the whitespace-stripped argument. -/
def getAccountByIBAN (s : Store) (iban : String) : Option Account :=
  s.accounts.find? (fun a => stripSpaces a.iban == stripSpaces iban)

/-- The list part of `DataManager.updateAccountBalance`: `findIndex` on the
account id followed by an in-place balance assignment on the first match;
returns the updated record (when found) together with the new list. -/
def updateBalanceList (accId : String) (nb : Rat) :
    List Account → Option Account × List Account
  | [] => (none, [])
  | a :: rest =>
    if a.id == accId then
      (some { a with balance := nb }, { a with balance := nb } :: rest)
    else
      ((updateBalanceList accId nb rest).1, a :: (updateBalanceList accId nb rest).2)

/-- `DataManager.updateAccountBalance(accountId, newBalance)`: when the id
is found the accounts array is written back with the one balance changed and
the updated account is returned; otherwise it returns `null` and never calls
`storage.set`. -/
def updateAccountBalance (s : Store) (accId : String) (nb : Rat) :
    Option Account × Store :=
  match updateBalanceList accId nb s.accounts with
  | (some a, accounts') => (some a, { s with accounts := accounts' })
  | (none, _) => (none, s)

/-- Generated data for one `Transaction` constructor call: fresh id,
current timestamp, fresh reference code. -/
structure TxnMeta where
  id : String
  timestamp : String
  reference : String
deriving Repr, DecidableEq

/-- The `Transaction` constructor as invoked by `processTransfer`: the data
object carries `accountId`, `recipientIBAN`, `recipientName`, `type`,
`amount`, `description`, `category` and `status`; `recipientIBAN` and
`recipientName` go through `|| null`, `recipientAccountId` defaults to
`null` and `fraudAlerts` to `[]`. -/
def mkTransferTxn (m : TxnMeta) (accountId recipIBAN recipName ty : String)
    (amount : Rat) (description category status : String) : Transaction :=
  { id := m.id
    accountId := accountId
    recipientIBAN := jsOrNull recipIBAN
    recipientName := jsOrNull recipName
    type := ty
    amount := amount
    description := description
    category := category
    status := status
    timestamp := m.timestamp
    recipientAccountId := none
    fraudAlerts := []
    reference := m.reference }

/-- `DataManager.createTransaction`: push the serialized transaction onto
the stored `transactions` array. -/
def createTransaction (s : Store) (t : Transaction) : Store :=
  { s with transactions := s.transactions ++ [t] }

/-- Counterparty display name used by `processTransfer`:
`this.getUserById(account.userId)?.fullName || 'Unknown'`. -/
def counterpartyName (s : Store) (a : Account) : String :=
  match getUserById s a.userId with
  | some u => u.fullName
  | none => "Unknown"

/-- Result shape of `processTransfer`: `{success: true, senderTransaction,
recipientTransaction, newSenderBalance, newRecipientBalance}` or
`{success: false, error}`. -/
inductive TransferResult where
  | ok (senderTxn recipientTxn : Transaction)
      (newSenderBalance newRecipientBalance : Rat)
  | err (msg : String)
deriving Repr, DecidableEq

/-- The `success` flag of the returned result object. -/
def TransferResult.success : TransferResult → Bool
  | .ok _ _ _ _ => true
  | .err _ => false

/-- Destination resolution in `processTransfer`: an identifier starting
with `acc_` is treated as an internal account id, anything else as an
external IBAN. -/
def resolveDest (s : Store) (ident : String) : Option Account :=
  if jsStartsWith ident "acc_" then getAccountById s ident
  else getAccountByIBAN s ident

/-- The success tail of `processTransfer` (after all checks passed):
persist both balances, then append the two transaction records. -/
def transferCommit (s : Store) (a b : Account) (amount : Rat)
    (description : String) (m1 m2 : TxnMeta) : Store :=
  let s1 := (updateAccountBalance s a.id (a.balance - amount)).2
  let s2 := (updateAccountBalance s1 b.id (b.balance + amount)).2
  let senderTxn := mkTransferTxn m1 a.id b.iban (counterpartyName s b)
    "transfer" amount
    (if description = "" then "Transfer to " ++ b.maskedIBAN else description)
    "transfer" "completed"
  let s3 := createTransaction s2 senderTxn
  let recipientTxn := mkTransferTxn m2 b.id a.iban (counterpartyName s a)
    "deposit" amount
    (if description = "" then "Transfer from " ++ a.maskedIBAN else description)
    "transfer" "completed"
  createTransaction s3 recipientTxn

/-- The two transaction records created by a successful transfer. -/
def transferTxns (s : Store) (a b : Account) (amount : Rat)
    (description : String) (m1 m2 : TxnMeta) : Transaction × Transaction :=
  (mkTransferTxn m1 a.id b.iban (counterpartyName s b) "transfer" amount
    (if description = "" then "Transfer to " ++ b.maskedIBAN else description)
    "transfer" "completed",
   mkTransferTxn m2 b.id a.iban (counterpartyName s a) "deposit" amount
    (if description = "" then "Transfer from " ++ a.maskedIBAN else description)
    "transfer" "completed")

/-- `DataManager.processTransfer(fromAccountId, toAccountIdentifier,
amount, description)`.  Checks run in source order: sender lookup,
sufficient funds, destination resolution, destination lookup, destination
active, same-account; then `withdraw`/`deposit` (whose own `amount > 0`
assertions surface here as caught errors), then the two balance writes and
the two transaction inserts.  Every thrown error is caught and returned as
`err` with the store untouched, because no storage write happens before the
commit phase. -/
def processTransfer (s : Store) (fromAccountId toAccountIdentifier : String)
    (amount : Rat) (description : String) (m1 m2 : TxnMeta) :
    TransferResult × Store :=
  match getAccountById s fromAccountId with
  | none => (.err "Sender account not found", s)
  | some fromAccount =>
    if !(fromAccount.hasSufficientFunds amount) then
      (.err "Insufficient funds", s)
    else
      match resolveDest s toAccountIdentifier with
      | none => (.err "Recipient account not found", s)
      | some toAccount =>
        if !toAccount.isActive then (.err "Recipient account is inactive", s)
        else if fromAccount.id == toAccount.id then
          (.err "Cannot transfer to the same account", s)
        else
          match fromAccount.withdraw amount with
          | .error e => (.err e, s)
          | .ok _ =>
            match toAccount.deposit amount with
            | .error e => (.err e, s)
            | .ok _ =>
              (.ok (transferTxns s fromAccount toAccount amount description m1 m2).1
                (transferTxns s fromAccount toAccount amount description m1 m2).2
                (fromAccount.balance - amount) (toAccount.balance + amount),
               transferCommit s fromAccount toAccount amount description m1 m2)

/-- `dashboard.calculateTransferFee`'s final `parseFloat(fee.toFixed(2))`:
round to the nearest hundredth (ECMA `toFixed` picks the larger candidate
on a tie, i.e. rounds half up for the positive fees that occur here). -/
def round2 (q : Rat) : Rat :=
  (Int.floor (q * 100 + 1 / 2) : Int) / 100

/-- `dashboard.calculateTransferFee(amount, isExternal)`: internal fee is
1% floored at 1 and capped at 5, external fee 2% floored at 2 and capped at
15, each then rounded to two decimals. -/
def calculateTransferFee (amount : Rat) (isExternal : Bool) : Rat :=
  if !isExternal then round2 (max 1 (min (amount * (1 / 100)) 5))
  else round2 (max 2 (min (amount * (2 / 100)) 15))

/-- Registration form data as consumed by `AuthManager.register`. -/
structure RegisterData where
  email : String
  password : String
  confirmPassword : String
  firstName : String
  lastName : String
deriving Repr, DecidableEq

/-- `AuthManager.validateRegistration`: all four required fields truthy
(non-empty, for strings). -/
def validateRegistration (d : RegisterData) : Bool :=
  d.email ≠ "" && d.password ≠ "" && d.firstName ≠ "" && d.lastName ≠ ""

/-- `AuthManager.validatePassword`: truthy and at least six characters. -/
def validatePassword (password : String) : Bool :=
  password ≠ "" && password.length ≥ 6

/-- `DataManager.updateUser(userId, {lastLogin})`: merge the update into
the first stored user with that id (the only `updateUser` cases the
modelled flows perform). -/
def setLastLoginList (userId t : String) : List User → List User
  | [] => []
  | u :: rest =>
    if u.id == userId then { u with lastLogin := some t } :: rest
    else u :: setLastLoginList userId t rest

/-- Store-level wrapper for the `lastLogin` merge. -/
def updateUserLastLogin (s : Store) (userId : String) (t : String) : Store :=
  { s with users := setLastLoginList userId t s.users }

/-- `AuthManager.login(email, password)`.  `hash` is the out-of-scope
`btoa`-based password encoder (`hashPassword`); `now` is the login
timestamp.  On success the stored user's `lastLogin` is updated and the
pre-update user snapshot becomes `currentUser`. -/
def login (hash : String → String) (s : Store) (email password now : String) :
    Bool × Store :=
  if email = "" || password = "" then (false, s)
  else
    match getUserByEmail s email with
    | none => (false, s)
    | some user =>
      if !user.isActive then (false, s)
      else if hash password ≠ user.password then (false, s)
      else
        let s1 := updateUserLastLogin s user.id now
        (true, { s1 with currentUser := some user })

/-- Generated data for one `Account` created by `createDefaultAccounts`:
fresh account id, random IBAN, creation timestamp. -/
structure AccountGen where
  id : String
  iban : String
  createdAt : String
deriving Repr, DecidableEq

/-- `DataManager.createAccount` as called from
`AuthManager.createDefaultAccounts`: the constructor fills the defaults
(`currency: 'USD'`, `isActive: true`, `overdraftProtection: false`) around
the supplied user id, type, starter balance and account number. -/
def createDefaultAccount (s : Store) (g : AccountGen) (userId ty : String)
    (balance : Rat) (accountNumber : String) : Store :=
  { s with accounts := s.accounts ++
      [{ id := g.id, userId := userId, accountNumber := accountNumber,
         iban := g.iban, type := ty, balance := balance, currency := "USD",
         createdAt := g.createdAt, isActive := true,
         overdraftProtection := false }] }

/-- Generated data consumed by one `AuthManager.register` run. -/
structure RegGen where
  userId : String
  userCreatedAt : String
  checking : AccountGen
  checkingNumber : String
  savings : AccountGen
  savingsNumber : String
  loginTime : String
deriving Repr, DecidableEq

/-- `AuthManager.register(userData)`.  Checks run in source order: required
fields, existing user by exact email match, password length, password
confirmation; then `createUser` (role `user`, `lastLogin` null, active),
`createDefaultAccounts` (checking seeded at 1000, savings at 500) and the
auto-login.  `hash` is the out-of-scope `btoa` password encoder. -/
def register (hash : String → String) (s : Store) (d : RegisterData)
    (g : RegGen) : Bool × String × Store :=
  if !validateRegistration d then
    (false, "Please fill in all required fields", s)
  else if (getUserByEmail s d.email).isSome then
    (false, "User with this email already exists", s)
  else if !validatePassword d.password then
    (false, "Password must be at least 6 characters long", s)
  else if d.password ≠ d.confirmPassword then
    (false, "Passwords do not match", s)
  else
    let newUser : User :=
      { id := g.userId, email := d.email, password := hash d.password,
        firstName := d.firstName, lastName := d.lastName, role := "user",
        createdAt := g.userCreatedAt, lastLogin := none, isActive := true }
    let s1 := { s with users := s.users ++ [newUser] }
    let s2 := createDefaultAccount s1 g.checking g.userId "checking" 1000 g.checkingNumber
    let s3 := createDefaultAccount s2 g.savings g.userId "savings" 500 g.savingsNumber
    let s4 := (login hash s3 d.email d.password g.loginTime).2
    (true, "Registration successful!", s4)

/-- Formalisation of the spec's fee formula wording: `clamp(x, lo, hi)`.
Written from the spec's words, for comparison against the source-derived
`calculateTransferFee`. -/
def specClamp (x lo hi : Rat) : Rat :=
  max lo (min x hi)

end FinSim

namespace FinSim

lemma updateBalanceList_fst_none {accId : String} {nb : Rat} :
    ∀ {l : List Account}, (updateBalanceList accId nb l).1 = none →
      (updateBalanceList accId nb l).2 = l := by
  intro l
  induction l with
  | nil => intro _; rfl
  | cons a rest ih =>
    intro h
    cases hc : (a.id == accId) with
    | true => simp [updateBalanceList, hc] at h
    | false =>
      simp only [updateBalanceList, hc] at h ⊢
      simp only [Bool.false_eq_true, if_false] at h ⊢
      simp [ih h]

lemma find?_updateBalanceList_self {accId : String} {nb : Rat} :
    ∀ (l : List Account),
      ((updateBalanceList accId nb l).2.find? (fun a => a.id == accId)) =
        (l.find? (fun a => a.id == accId)).map (fun a => { a with balance := nb }) := by
  intro l
  induction l with
  | nil => rfl
  | cons a rest ih =>
    cases hc : (a.id == accId) with
    | true => simp [updateBalanceList, hc, List.find?]
    | false =>
      simp only [updateBalanceList, hc, Bool.false_eq_true, if_false]
      simp only [List.find?, hc]
      exact ih

lemma find?_updateBalanceList_ne {accId accId' : String} {nb : Rat}
    (hne : accId' ≠ accId) :
    ∀ (l : List Account),
      ((updateBalanceList accId nb l).2.find? (fun a => a.id == accId')) =
        l.find? (fun a => a.id == accId') := by
  intro l
  induction l with
  | nil => rfl
  | cons a rest ih =>
    cases hc : (a.id == accId) with
    | true =>
      have haid : a.id = accId := by simpa using hc
      have h2 : (a.id == accId') = false := by
        simp only [beq_eq_false_iff_ne, ne_eq, haid]
        exact fun h => hne h.symm
      simp [updateBalanceList, hc, List.find?, h2]
    | false =>
      simp only [updateBalanceList, hc, Bool.false_eq_true, if_false]
      cases h2 : (a.id == accId') with
      | true => simp [List.find?, h2]
      | false => simp [List.find?, h2, ih]

lemma mem_updateBalanceList {accId : String} {nb : Rat} {x : Account} :
    ∀ {l : List Account}, x ∈ (updateBalanceList accId nb l).2 →
      x.balance = nb ∨ x ∈ l := by
  intro l
  induction l with
  | nil => intro h; exact absurd h (by simp [updateBalanceList])
  | cons a rest ih =>
    intro h
    cases hc : (a.id == accId) with
    | true =>
      simp only [updateBalanceList, hc, if_true] at h
      rcases List.mem_cons.mp h with h | h
      · left; rw [h]
      · right; simp [h]
    | false =>
      simp only [updateBalanceList, hc, Bool.false_eq_true, if_false] at h
      rcases List.mem_cons.mp h with h | h
      · right; simp [h]
      · rcases ih h with h | h
        · left; exact h
        · right; simp [h]

lemma updateBalanceList_not_found {accId : String} {nb : Rat} :
    ∀ {l : List Account}, l.find? (fun a => a.id == accId) = none →
      updateBalanceList accId nb l = (none, l) := by
  intro l
  induction l with
  | nil => intro _; rfl
  | cons a rest ih =>
    intro h
    rw [List.find?_eq_none] at h
    have hc : (a.id == accId) = false := by
      have := h a (by simp)
      simpa using this
    have hrest : rest.find? (fun a => a.id == accId) = none := by
      rw [List.find?_eq_none]
      intro x hx
      exact h x (by simp [hx])
    simp [updateBalanceList, hc, ih hrest]

lemma updateBalanceList_found {accId : String} {nb : Rat} {a : Account} :
    ∀ (pre post : List Account), (∀ x ∈ pre, (x.id == accId) = false) →
      (a.id == accId) = true →
      updateBalanceList accId nb (pre ++ a :: post) =
        (some { a with balance := nb }, pre ++ { a with balance := nb } :: post) := by
  intro pre
  induction pre with
  | nil => intro post _ ha; simp [updateBalanceList, ha]
  | cons p rest ih =>
    intro post hpre ha
    have hp : (p.id == accId) = false := hpre p (by simp)
    have hrest : ∀ x ∈ rest, (x.id == accId) = false := by
      intro x hx; exact hpre x (by simp [hx])
    simp [updateBalanceList, hp, ih post hrest ha]

lemma updateAccountBalance_accounts (s : Store) (accId : String) (nb : Rat) :
    (updateAccountBalance s accId nb).2.accounts =
      (updateBalanceList accId nb s.accounts).2 := by
  unfold updateAccountBalance
  split
  next a accounts' heq => simp [heq]
  next heq =>
    have h1 : (updateBalanceList accId nb s.accounts).1 = none := by rw [heq]
    rw [updateBalanceList_fst_none h1]

lemma updateAccountBalance_users (s : Store) (accId : String) (nb : Rat) :
    (updateAccountBalance s accId nb).2.users = s.users := by
  unfold updateAccountBalance
  split <;> rfl

lemma updateAccountBalance_transactions (s : Store) (accId : String) (nb : Rat) :
    (updateAccountBalance s accId nb).2.transactions = s.transactions := by
  unfold updateAccountBalance
  split <;> rfl

lemma updateAccountBalance_currentUser (s : Store) (accId : String) (nb : Rat) :
    (updateAccountBalance s accId nb).2.currentUser = s.currentUser := by
  unfold updateAccountBalance
  split <;> rfl

end FinSim

namespace FinSim

lemma withdraw_ok {a a' : Account} {amt : Rat} (h : a.withdraw amt = .ok a') :
    0 < amt ∧ amt ≤ a.balance ∧ a' = { a with balance := a.balance - amt } := by
  unfold Account.withdraw at h
  split at h
  · exact absurd h (by simp)
  next hpos =>
    split at h
    next hsf => exact absurd h (by simp)
    next hsf =>
      have hs : amt ≤ a.balance := by
        simpa [Account.hasSufficientFunds] using hsf
      exact ⟨not_le.mp hpos, hs, by simpa using h.symm⟩

lemma deposit_ok {a a' : Account} {amt : Rat} (h : a.deposit amt = .ok a') :
    0 < amt ∧ a' = { a with balance := a.balance + amt } := by
  unfold Account.deposit at h
  split at h
  · exact absurd h (by simp)
  next hpos =>
    exact ⟨not_le.mp hpos, by simpa using h.symm⟩

end FinSim

namespace FinSim

lemma processTransfer_ok_spec {s : Store} {fid ident : String} {amt : Rat}
    {d : String} {m1 m2 : TxnMeta} {stx rtx : Transaction} {nsb nrb : Rat}
    {s' : Store}
    (h : processTransfer s fid ident amt d m1 m2 = (.ok stx rtx nsb nrb, s')) :
    ∃ a b, getAccountById s fid = some a ∧ resolveDest s ident = some b ∧
      amt ≤ a.balance ∧ b.isActive = true ∧ a.id ≠ b.id ∧ 0 < amt ∧
      stx = (transferTxns s a b amt d m1 m2).1 ∧
      rtx = (transferTxns s a b amt d m1 m2).2 ∧
      nsb = a.balance - amt ∧ nrb = b.balance + amt ∧
      s' = transferCommit s a b amt d m1 m2 := by
  unfold processTransfer at h
  split at h
  · exact absurd h (by simp)
  next a hfa =>
    split at h
    · exact absurd h (by simp)
    next hsf =>
      split at h
      · exact absurd h (by simp)
      next b hrb =>
        split at h
        · exact absurd h (by simp)
        next hact =>
          split at h
          · exact absurd h (by simp)
          next hid =>
            split at h
            next e hw => exact absurd h (by simp)
            next w hw =>
              split at h
              next e hd => exact absurd h (by simp)
              next dep hd =>
                have h1 := congrArg Prod.fst h
                have h2 := congrArg Prod.snd h
                simp only at h1 h2
                obtain ⟨h1a, h1b, h1c, h1d⟩ := TransferResult.ok.inj h1
                refine ⟨a, b, hfa, hrb, ?_, ?_, ?_, (withdraw_ok hw).1,
                  h1a.symm, h1b.symm, h1c.symm, h1d.symm, h2.symm⟩
                · simpa [Account.hasSufficientFunds] using hsf
                · simpa using hact
                · simpa using hid

end FinSim

namespace FinSim

lemma processTransfer_err_frame {s : Store} {fid ident : String} {amt : Rat}
    {d : String} {m1 m2 : TxnMeta} {e : String} {s' : Store}
    (h : processTransfer s fid ident amt d m1 m2 = (.err e, s')) : s' = s := by
  unfold processTransfer at h
  split at h
  · exact (congrArg Prod.snd h).symm
  next a hfa =>
    split at h
    · exact (congrArg Prod.snd h).symm
    next hsf =>
      split at h
      · exact (congrArg Prod.snd h).symm
      next b hrb =>
        split at h
        · exact (congrArg Prod.snd h).symm
        next hact =>
          split at h
          · exact (congrArg Prod.snd h).symm
          next hid =>
            split at h
            next e' hw => exact (congrArg Prod.snd h).symm
            next w hw =>
              split at h
              next e' hd => exact (congrArg Prod.snd h).symm
              next dep hd => exact absurd (congrArg Prod.fst h) (by simp)

lemma createTransaction_accounts (s : Store) (t : Transaction) :
    (createTransaction s t).accounts = s.accounts := rfl

lemma transferCommit_accounts (s : Store) (a b : Account) (amt : Rat)
    (d : String) (m1 m2 : TxnMeta) :
    (transferCommit s a b amt d m1 m2).accounts =
      (updateBalanceList b.id (b.balance + amt)
        (updateBalanceList a.id (a.balance - amt) s.accounts).2).2 := by
  unfold transferCommit
  simp only [createTransaction_accounts]
  rw [updateAccountBalance_accounts]
  congr 1
  rw [updateAccountBalance_accounts]

lemma transferCommit_transactions (s : Store) (a b : Account) (amt : Rat)
    (d : String) (m1 m2 : TxnMeta) :
    (transferCommit s a b amt d m1 m2).transactions =
      s.transactions ++ [(transferTxns s a b amt d m1 m2).1,
        (transferTxns s a b amt d m1 m2).2] := by
  unfold transferCommit createTransaction transferTxns
  simp only []
  rw [updateAccountBalance_transactions]
  rw [updateAccountBalance_transactions]
  simp

lemma getAccountById_id {s : Store} {id : String} {a : Account}
    (h : getAccountById s id = some a) : a.id = id := by
  have := List.find?_some h
  simpa using this

lemma resolveDest_mem {s : Store} {ident : String} {b : Account}
    (h : resolveDest s ident = some b) : b ∈ s.accounts := by
  unfold resolveDest at h
  split at h
  · exact List.mem_of_find?_eq_some h
  · exact List.mem_of_find?_eq_some h

end FinSim

namespace FinSim

lemma transferCommit_balance_source {s : Store} {a b : Account} {amt : Rat}
    {d : String} {m1 m2 : TxnMeta} (hab : a.id ≠ b.id)
    (hfa : s.accounts.find? (fun x => x.id == a.id) = some a) :
    (getAccountById (transferCommit s a b amt d m1 m2) a.id).map Account.balance =
      some (a.balance - amt) := by
  unfold getAccountById
  rw [transferCommit_accounts, find?_updateBalanceList_ne hab,
    find?_updateBalanceList_self, hfa]
  rfl

lemma transferCommit_balance_dest {s : Store} {a b : Account} {amt : Rat}
    {d : String} {m1 m2 : TxnMeta} (hab : a.id ≠ b.id) (hb : b ∈ s.accounts) :
    (getAccountById (transferCommit s a b amt d m1 m2) b.id).map Account.balance =
      some (b.balance + amt) := by
  unfold getAccountById
  rw [transferCommit_accounts, find?_updateBalanceList_self,
    find?_updateBalanceList_ne (Ne.symm hab)]
  obtain ⟨c, hc⟩ : ∃ c, s.accounts.find? (fun x => x.id == b.id) = some c := by
    have hs : (s.accounts.find? (fun x => x.id == b.id)).isSome :=
      List.find?_isSome.mpr ⟨b, hb, by simp⟩
    exact Option.isSome_iff_exists.mp hs
  rw [hc]
  rfl

end FinSim

namespace FinSim

/-- Example fixture: checking account of the first example user. -/
def exAccX : Account :=
  { id := "acc_x", userId := "user_1", accountNumber := "FIN00000001",
    iban := "FS00 FINS0010 1111 2222 3333 4444", type := "checking",
    balance := 1000, currency := "USD", createdAt := "2024-01-01",
    isActive := true, overdraftProtection := false }

/-- Example fixture: checking account of the second example user. -/
def exAccY : Account :=
  { exAccX with
      id := "acc_y"
      userId := "user_2"
      accountNumber := "FIN00000002"
      iban := "FS00 FINS0010 1234 1234 1234 1234"
      balance := 500 }

/-- Example fixture: first example user. -/
def exUserA : User :=
  { id := "user_1", email := "alice@x.com", password := "pw1",
    firstName := "Alice", lastName := "Anders", role := "user",
    createdAt := "2024-01-01", lastLogin := none, isActive := true }

/-- Example fixture: second example user. -/
def exUserB : User :=
  { exUserA with
      id := "user_2"
      email := "bob@x.com"
      firstName := "Bob"
      lastName := "Baker" }

/-- Example fixture: a store with two users and their accounts. -/
def exSt : Store :=
  { users := [exUserA, exUserB], accounts := [exAccX, exAccY],
    transactions := [], currentUser := none }

/-- Example fixture: generated metadata for the first transaction. -/
def exM1 : TxnMeta := { id := "txn_1", timestamp := "t1", reference := "REF1" }

/-- Example fixture: generated metadata for the second transaction. -/
def exM2 : TxnMeta := { id := "txn_2", timestamp := "t2", reference := "REF2" }

/-- Example fixture: debit-leg transaction of the example transfer. -/
def exStx : Transaction := (transferTxns exSt exAccX exAccY 200 "rent" exM1 exM2).1

/-- Example fixture: credit-leg transaction of the example transfer. -/
def exRtx : Transaction := (transferTxns exSt exAccX exAccY 200 "rent" exM1 exM2).2

/-- Example fixture: store after the example transfer committed. -/
def exCommit : Store := transferCommit exSt exAccX exAccY 200 "rent" exM1 exM2


end FinSim

namespace FinSim

/-- C1: for every successful call to `processTransfer` moving amount A from
source account X to destination account Y, X's stored balance afterwards
equals X's balance before minus A, Y's stored balance afterwards equals Y's
balance before plus A, and the sum of the two balances is unchanged. -/
theorem transfer_conservation (s : Store) (fid ident : String) (amt : Rat)
    (d : String) (m1 m2 : TxnMeta) (stx rtx : Transaction) (nsb nrb : Rat)
    (s' : Store)
    (h : processTransfer s fid ident amt d m1 m2 = (.ok stx rtx nsb nrb, s')) :
    ∃ a b, getAccountById s fid = some a ∧ resolveDest s ident = some b ∧
      (getAccountById s' a.id).map Account.balance = some (a.balance - amt) ∧
      (getAccountById s' b.id).map Account.balance = some (b.balance + amt) ∧
      a.balance - amt + (b.balance + amt) = a.balance + b.balance := by
  obtain ⟨a, b, hfa, hrb, hsf, hact, hab, hamt, _, _, _, _, hs'⟩ :=
    processTransfer_ok_spec h
  subst hs'
  have hfa' : s.accounts.find? (fun x => x.id == a.id) = some a := by
    have hid := getAccountById_id hfa
    unfold getAccountById at hfa
    rw [hid]
    exact hfa
  exact ⟨a, b, hfa, hrb, transferCommit_balance_source hab hfa',
    transferCommit_balance_dest hab (resolveDest_mem hrb), by ring⟩

/-- Witness for C1: the spec scenario — balances 1000 and 500 before, a
transfer of 200, stored balances 800 and 700 afterwards. -/
theorem transfer_conservation_witness :
    ∃ a b, getAccountById exSt "acc_x" = some a ∧
      resolveDest exSt "acc_y" = some b ∧
      (getAccountById exCommit a.id).map Account.balance =
        some (a.balance - 200) ∧
      (getAccountById exCommit b.id).map Account.balance =
        some (b.balance + 200) ∧
      a.balance - 200 + (b.balance + 200) = a.balance + b.balance :=
  transfer_conservation exSt "acc_x" "acc_y" 200 "rent" exM1 exM2 exStx exRtx
    800 700 exCommit (by with_unfolding_all rfl)

/-- C3: any `processTransfer` call that returns a failure result leaves the
stored accounts, transactions and users collections exactly as they were:
no balance is changed and no transaction record is created. -/
theorem transfer_rejection_frame (s : Store) (fid ident : String) (amt : Rat)
    (d : String) (m1 m2 : TxnMeta) (e : String) (s' : Store)
    (h : processTransfer s fid ident amt d m1 m2 = (.err e, s')) :
    s'.accounts = s.accounts ∧ s'.transactions = s.transactions ∧
      s'.users = s.users := by
  have hs := processTransfer_err_frame h
  subst hs
  exact ⟨rfl, rfl, rfl⟩

/-- Witness for C3: the spec scenario — an attempted transfer of more than
the balance fails with `Insufficient funds` and changes nothing. -/
theorem transfer_rejection_frame_witness :
    (processTransfer exSt "acc_y" "acc_x" 5000 "" exM1 exM2).2.accounts =
        exSt.accounts ∧
      (processTransfer exSt "acc_y" "acc_x" 5000 "" exM1 exM2).2.transactions =
        exSt.transactions ∧
      (processTransfer exSt "acc_y" "acc_x" 5000 "" exM1 exM2).2.users =
        exSt.users :=
  transfer_rejection_frame exSt "acc_y" "acc_x" 5000 "" exM1 exM2
    "Insufficient funds" exSt (by with_unfolding_all rfl)

end FinSim

namespace FinSim

lemma jsOrNull_of_ne {v : String} (h : v ≠ "") : jsOrNull v = some v := by
  simp [jsOrNull, h]

lemma counterpartyName_ne_empty (s : Store) (x : Account) :
    counterpartyName s x ≠ "" := by
  unfold counterpartyName
  split
  next u _ =>
    unfold User.fullName
    intro hc
    have hl := congrArg String.length hc
    simp [String.length_append] at hl
    exact absurd hl.1.2 (by decide)
  next => decide

/-- C2: every successful `processTransfer` appends exactly two transaction
records: a `transfer`-typed one owned by the source and a `deposit`-typed
one owned by the destination, both over the transferred amount, each
carrying the other side's IBAN and owner display name as counterparty
metadata. -/
theorem transfer_paired_ledger (s : Store) (fid ident : String) (amt : Rat)
    (d : String) (m1 m2 : TxnMeta) (stx rtx : Transaction) (nsb nrb : Rat)
    (s' : Store)
    (h : processTransfer s fid ident amt d m1 m2 = (.ok stx rtx nsb nrb, s')) :
    ∃ a b, getAccountById s fid = some a ∧ resolveDest s ident = some b ∧
      s'.transactions = s.transactions ++ [stx, rtx] ∧
      stx.type = "transfer" ∧ stx.accountId = a.id ∧ stx.amount = amt ∧
      stx.recipientIBAN = jsOrNull b.iban ∧
      stx.recipientName = some (counterpartyName s b) ∧
      rtx.type = "deposit" ∧ rtx.accountId = b.id ∧ rtx.amount = amt ∧
      rtx.recipientIBAN = jsOrNull a.iban ∧
      rtx.recipientName = some (counterpartyName s a) := by
  obtain ⟨a, b, hfa, hrb, hsf, hact, hab, hamt, hstx, hrtx, _, _, hs'⟩ :=
    processTransfer_ok_spec h
  subst hs' hstx hrtx
  refine ⟨a, b, hfa, hrb, ?_, ?_, ?_, ?_, ?_, ?_, ?_, ?_, ?_, ?_, ?_⟩
  · exact transferCommit_transactions s a b amt d m1 m2
  · rfl
  · rfl
  · rfl
  · rfl
  · exact jsOrNull_of_ne (counterpartyName_ne_empty s b)
  · rfl
  · rfl
  · rfl
  · rfl
  · exact jsOrNull_of_ne (counterpartyName_ne_empty s a)

/-- Witness for C2: the example transfer of 200 appends exactly the two
expected ledger rows. -/
theorem transfer_paired_ledger_witness :
    ∃ a b, getAccountById exSt "acc_x" = some a ∧
      resolveDest exSt "acc_y" = some b ∧
      exCommit.transactions = exSt.transactions ++ [exStx, exRtx] ∧
      exStx.type = "transfer" ∧ exStx.accountId = a.id ∧ exStx.amount = 200 ∧
      exStx.recipientIBAN = jsOrNull b.iban ∧
      exStx.recipientName = some (counterpartyName exSt b) ∧
      exRtx.type = "deposit" ∧ exRtx.accountId = b.id ∧ exRtx.amount = 200 ∧
      exRtx.recipientIBAN = jsOrNull a.iban ∧
      exRtx.recipientName = some (counterpartyName exSt a) :=
  transfer_paired_ledger exSt "acc_x" "acc_y" 200 "rent" exM1 exM2 exStx exRtx
    800 700 exCommit (by with_unfolding_all rfl)

end FinSim

namespace FinSim

/-- Counterexample to C5: a same-account transfer with insufficient balance
is rejected as `Insufficient funds`, not as a same-account failure — the
sufficiency check runs first. -/
theorem same_account_insufficient_counterexample :
    processTransfer exSt "acc_x" "acc_x" 5000 "" exM1 exM2 =
      (.err "Insufficient funds", exSt) ∧
    "Insufficient funds" ≠ "Cannot transfer to the same account" :=
  ⟨by with_unfolding_all rfl, by decide⟩

/-- C5 (amended): when source and destination resolve to the same account,
the destination is active and the source balance covers the amount, the
transfer fails with the same-account error; with an insufficient balance
the earlier `Insufficient funds` check wins instead. -/
theorem same_account_rejected (s : Store) (fid ident : String) (amt : Rat)
    (d : String) (m1 m2 : TxnMeta) (a b : Account)
    (hfa : getAccountById s fid = some a) (hrb : resolveDest s ident = some b)
    (hid : b.id = a.id) (hbal : amt ≤ a.balance) (hact : b.isActive = true) :
    processTransfer s fid ident amt d m1 m2 =
      (.err "Cannot transfer to the same account", s) := by
  unfold processTransfer
  rw [hfa, hrb]
  simp [Account.hasSufficientFunds, hbal, hact, hid, ge_iff_le]

/-- Witness for C5 (amended): transferring 50 from the example account to
itself fails with the same-account error despite a sufficient balance. -/
theorem same_account_rejected_witness :
    processTransfer exSt "acc_x" "acc_x" 50 "" exM1 exM2 =
      (.err "Cannot transfer to the same account", exSt) :=
  same_account_rejected exSt "acc_x" "acc_x" 50 "" exM1 exM2 exAccX exAccX
    (by decide) (by decide) rfl (by decide) rfl

end FinSim

namespace FinSim

/-- Example fixture: debit leg of the example external (IBAN) transfer. -/
def exStxE : Transaction := (transferTxns exSt exAccX exAccY 50 "" exM1 exM2).1

/-- Example fixture: credit leg of the example external (IBAN) transfer. -/
def exRtxE : Transaction := (transferTxns exSt exAccX exAccY 50 "" exM1 exM2).2

/-- Example fixture: store after the example external transfer. -/
def exCommitE : Store := transferCommit exSt exAccX exAccY 50 "" exM1 exM2

/-- Counterexample to C6: the space-free form of a stored IBAN fails the
fixed-pattern validator, yet `processTransfer` accepts it as an external
destination and the transfer succeeds, because destination lookup compares
space-stripped IBANs and never consults the validator. -/
theorem invalid_iban_accepted_counterexample :
    isValidIBAN "FS00FINS00101234123412341234" = false ∧
    (processTransfer exSt "acc_x" "FS00FINS00101234123412341234" 50 "" exM1
      exM2).1.success = true :=
  ⟨by decide, by with_unfolding_all rfl⟩

/-- C6 (amended): `processTransfer` accepts an external destination (an
identifier not starting with `acc_`) only when some stored account's
whitespace-stripped IBAN equals the whitespace-stripped identifier; the
format validator is not consulted, so format-invalid strings that match a
stored IBAN after whitespace removal are accepted. -/
theorem external_transfer_requires_iban_match (s : Store)
    (fid ident : String) (amt : Rat) (d : String) (m1 m2 : TxnMeta)
    (stx rtx : Transaction) (nsb nrb : Rat) (s' : Store)
    (hpre : jsStartsWith ident "acc_" = false)
    (h : processTransfer s fid ident amt d m1 m2 = (.ok stx rtx nsb nrb, s')) :
    ∃ b ∈ s.accounts, stripSpaces b.iban = stripSpaces ident := by
  obtain ⟨a, b, hfa, hrb, -, -, -, -, -, -, -, -, -⟩ :=
    processTransfer_ok_spec h
  unfold resolveDest at hrb
  rw [hpre] at hrb
  simp only [Bool.false_eq_true, if_false] at hrb
  exact ⟨b, List.mem_of_find?_eq_some hrb, by simpa using List.find?_some hrb⟩

/-- Witness for C6 (amended): the accepted space-free destination string
matches the second stored account's IBAN after whitespace removal. -/
theorem external_transfer_requires_iban_match_witness :
    ∃ b ∈ exSt.accounts,
      stripSpaces b.iban = stripSpaces "FS00FINS00101234123412341234" :=
  external_transfer_requires_iban_match exSt "acc_x"
    "FS00FINS00101234123412341234" 50 "" exM1 exM2 exStxE exRtxE 950 550
    exCommitE (by decide) (by with_unfolding_all rfl)

end FinSim

namespace FinSim

/-- C7 (code bug): the IBAN generator emits a 12-digit, three-group account
number (`FS00 FINS0010 NNNN NNNN NNNN`), while the class's own doc comment
and its fixed-pattern validator require a 16-digit, four-group account
number — so every generated IBAN is rejected by the validator.  Evaluated
here at the random-digit input `123456789012`; a correctly formed
four-group IBAN is accepted, showing the validator itself expects the
documented shape. -/
theorem generateIBAN_rejected_by_validator :
    generateIBAN "123456789012" = "FS00 FINS0010 1234 5678 9012" ∧
    isValidIBAN (generateIBAN "123456789012") = false ∧
    isValidIBAN "FS00 FINS0010 1234 5678 9012 3456" = true :=
  ⟨by decide, by decide, by decide⟩

end FinSim

namespace FinSim

/-- Counterexample to C8: at amount 123.45 the internal fee is 1.23 — the
clamp result 1.2345 rounded to two decimals by `toFixed(2)` — not the exact
clamp value the claim states. -/
theorem fee_rounding_counterexample :
    calculateTransferFee (12345 / 100) false = 123 / 100 ∧
    specClamp ((12345 / 100) * (1 / 100)) 1 5 = 12345 / 10000 ∧
    (123 / 100 : Rat) ≠ 12345 / 10000 := by
  refine ⟨by with_unfolding_all rfl, ?_, by with_unfolding_all decide⟩
  unfold specClamp
  norm_num

/-- C8 (amended): the fee helper is a pure function equal to the spec's
clamp formula rounded to the nearest cent (internal: clamp(amount×1%, 1, 5);
external: clamp(amount×2%, 2, 15)); and a successful `processTransfer`
moves exactly the transferred amount — no fee is subtracted from either
stored balance. -/
theorem fee_is_display_only :
    (∀ amt : Rat,
      calculateTransferFee amt false =
        round2 (specClamp (amt * (1 / 100)) 1 5) ∧
      calculateTransferFee amt true =
        round2 (specClamp (amt * (2 / 100)) 2 15)) ∧
    (∀ (s : Store) (fid ident : String) (amt : Rat) (d : String)
      (m1 m2 : TxnMeta) (stx rtx : Transaction) (nsb nrb : Rat) (s' : Store),
      processTransfer s fid ident amt d m1 m2 = (.ok stx rtx nsb nrb, s') →
      ∃ a b, getAccountById s fid = some a ∧ resolveDest s ident = some b ∧
        nsb = a.balance - amt ∧ nrb = b.balance + amt ∧
        (getAccountById s' a.id).map Account.balance =
          some (a.balance - amt) ∧
        (getAccountById s' b.id).map Account.balance =
          some (b.balance + amt)) := by
  constructor
  · intro amt
    exact ⟨rfl, rfl⟩
  · intro s fid ident amt d m1 m2 stx rtx nsb nrb s' h
    obtain ⟨a, b, hfa, hrb, hsf, hact, hab, hamt, _, _, hnsb, hnrb, hs'⟩ :=
      processTransfer_ok_spec h
    subst hs'
    have hfa' : s.accounts.find? (fun x => x.id == a.id) = some a := by
      have hid := getAccountById_id hfa
      unfold getAccountById at hfa
      rw [hid]
      exact hfa
    exact ⟨a, b, hfa, hrb, hnsb, hnrb, transferCommit_balance_source hab hfa',
      transferCommit_balance_dest hab (resolveDest_mem hrb)⟩

/-- Witness for C8 (amended): both fee formulas evaluated at amount 130,
and the example transfer of 200 moving exactly 200. -/
theorem fee_is_display_only_witness :
    (calculateTransferFee 130 false =
        round2 (specClamp (130 * (1 / 100)) 1 5) ∧
      calculateTransferFee 130 true =
        round2 (specClamp (130 * (2 / 100)) 2 15)) ∧
    (∃ a b, getAccountById exSt "acc_x" = some a ∧
      resolveDest exSt "acc_y" = some b ∧
      (800 : Rat) = a.balance - 200 ∧ (700 : Rat) = b.balance + 200 ∧
      (getAccountById exCommit a.id).map Account.balance =
        some (a.balance - 200) ∧
      (getAccountById exCommit b.id).map Account.balance =
        some (b.balance + 200)) :=
  ⟨fee_is_display_only.1 130,
   fee_is_display_only.2 exSt "acc_x" "acc_y" 200 "rent" exM1 exM2 exStx
     exRtx 800 700 exCommit (by with_unfolding_all rfl)⟩

end FinSim

namespace FinSim

/-- Example fixture: a store holding one user with a lower-case email. -/
def exSt9 : Store :=
  { users := [exUserA], accounts := [], transactions := [],
    currentUser := none }

/-- Example fixture: registration form data whose email differs from the
stored one only in letter case. -/
def exRegData : RegisterData :=
  { email := "Alice@x.com", password := "secret1",
    confirmPassword := "secret1", firstName := "Al", lastName := "Ice" }

/-- Example fixture: registration form data with the stored email verbatim. -/
def exRegDataExact : RegisterData :=
  { exRegData with email := "alice@x.com" }

/-- Example fixture: generated ids/timestamps for one registration run. -/
def exRegGen : RegGen :=
  { userId := "user_9", userCreatedAt := "t0",
    checking := { id := "acc_c", iban := "IB1", createdAt := "t0" },
    checkingNumber := "FIN00000009",
    savings := { id := "acc_s", iban := "IB2", createdAt := "t0" },
    savingsNumber := "FIN00000008", loginTime := "t9" }

/-- Counterexample to C9: with `alice@x.com` already stored, registering
`Alice@x.com` succeeds, leaving two stored users whose emails differ only
in letter case — the uniqueness check is case-sensitive. -/
theorem register_case_insensitive_counterexample :
    (register (fun p => p) exSt9 exRegData exRegGen).1 = true ∧
    (register (fun p => p) exSt9 exRegData exRegGen).2.2.users.map
      User.email = ["alice@x.com", "Alice@x.com"] ∧
    "alice@x.com" ≠ "Alice@x.com" ∧
    String.mk ("alice@x.com".toList.map Char.toLower) =
      String.mk ("Alice@x.com".toList.map Char.toLower) :=
  ⟨by decide, by decide, by decide, by decide⟩

/-- C9 (amended): email uniqueness is enforced only under exact,
case-sensitive string comparison — registration fails with the
already-exists error whenever a stored user's email is exactly equal to the
supplied email (given the required fields are present), but emails
differing only in case are treated as distinct. -/
theorem register_duplicate_email_exact (hash : String → String) (s : Store)
    (d : RegisterData) (g : RegGen) (u : User)
    (hv : validateRegistration d = true)
    (hu : getUserByEmail s d.email = some u) :
    register hash s d g = (false, "User with this email already exists", s) := by
  unfold register
  rw [hv, hu]
  simp

/-- Witness for C9 (amended): registering the stored email verbatim is
rejected as already existing. -/
theorem register_duplicate_email_exact_witness :
    register (fun p => p) exSt9 exRegDataExact exRegGen =
      (false, "User with this email already exists", exSt9) :=
  register_duplicate_email_exact (fun p => p) exSt9 exRegDataExact exRegGen
    exUserA (by decide) (by decide)

end FinSim

namespace FinSim

/-- C10: `updateAccountBalance` replaces only the balance of the first
stored account with the given id, leaves every other field and every other
record unchanged, never touches the users, transactions or session
collections, and returns `null` leaving the whole store unchanged when no
account has that id. -/
theorem updateAccountBalance_frame (s : Store) (accId : String) (nb : Rat) :
    ((updateAccountBalance s accId nb).2.users = s.users ∧
     (updateAccountBalance s accId nb).2.transactions = s.transactions ∧
     (updateAccountBalance s accId nb).2.currentUser = s.currentUser) ∧
    (s.accounts.find? (fun a => a.id == accId) = none →
      updateAccountBalance s accId nb = (none, s)) ∧
    (∀ pre a post, s.accounts = pre ++ a :: post →
      (∀ x ∈ pre, (x.id == accId) = false) → (a.id == accId) = true →
      updateAccountBalance s accId nb =
        (some { a with balance := nb },
         { s with accounts := pre ++ { a with balance := nb } :: post })) := by
  refine ⟨⟨updateAccountBalance_users s accId nb,
    updateAccountBalance_transactions s accId nb,
    updateAccountBalance_currentUser s accId nb⟩, ?_, ?_⟩
  · intro hnone
    unfold updateAccountBalance
    rw [updateBalanceList_not_found hnone]
  · intro pre a post hacc hpre ha
    unfold updateAccountBalance
    rw [hacc, updateBalanceList_found pre post hpre ha]

/-- Witness for C10: an unknown id returns `null` and changes nothing; a
known id changes exactly that account's balance. -/
theorem updateAccountBalance_frame_witness :
    updateAccountBalance exSt "acc_none" 5 = (none, exSt) ∧
    updateAccountBalance exSt "acc_x" 123 =
      (some { exAccX with balance := 123 },
       { exSt with accounts := [{ exAccX with balance := 123 }, exAccY] }) :=
  ⟨(updateAccountBalance_frame exSt "acc_none" 5).2.1 (by decide),
   (updateAccountBalance_frame exSt "acc_x" 123).2.2 [] exAccX [exAccY]
     (by decide) (by simp) (by decide)⟩

end FinSim

namespace FinSim

/-- Counterexample to C4: `updateAccountBalance` is a raw setter — it
writes any supplied value, so it can drive a stored balance below zero. -/
theorem updateAccountBalance_negative_counterexample :
    (getAccountById (updateAccountBalance exSt "acc_x" (-1)).2 "acc_x").map
      Account.balance = some (-1) ∧ ((-1 : Rat) < 0) :=
  ⟨by decide, by decide⟩

/-- C4 (amended): `deposit`, `withdraw` and `processTransfer` preserve
non-negative balances, and withdrawing or transferring more than the
balance always fails with the insufficient-funds error and mutates
nothing; `updateAccountBalance`, however, is a raw setter excluded from
the guarantee. -/
theorem no_negative_balances_amended :
    (∀ (a a' : Account) (x : Rat), a.withdraw x = .ok a' → 0 ≤ a'.balance) ∧
    (∀ (a a' : Account) (x : Rat), 0 ≤ a.balance → a.deposit x = .ok a' →
      0 ≤ a'.balance) ∧
    (∀ (a : Account) (x : Rat), 0 ≤ a.balance → a.balance < x →
      a.withdraw x = .error "Insufficient funds") ∧
    (∀ (s : Store) (fid ident : String) (x : Rat) (d : String)
      (m1 m2 : TxnMeta) (a : Account),
      getAccountById s fid = some a → a.balance < x →
      processTransfer s fid ident x d m1 m2 =
        (.err "Insufficient funds", s)) ∧
    (∀ (s : Store) (fid ident : String) (x : Rat) (d : String)
      (m1 m2 : TxnMeta),
      (∀ acc ∈ s.accounts, 0 ≤ acc.balance) →
      ∀ acc' ∈ (processTransfer s fid ident x d m1 m2).2.accounts,
        0 ≤ acc'.balance) := by
  refine ⟨?_, ?_, ?_, ?_, ?_⟩
  · intro a a' x h
    obtain ⟨hx, hle, ha'⟩ := withdraw_ok h
    rw [ha']
    exact sub_nonneg.mpr hle
  · intro a a' x hb h
    obtain ⟨hx, ha'⟩ := deposit_ok h
    rw [ha']
    exact add_nonneg hb (le_of_lt hx)
  · intro a x hb hlt
    unfold Account.withdraw
    rw [if_neg (by linarith : ¬ x ≤ 0)]
    have hsf : a.hasSufficientFunds x = false := by
      simp only [Account.hasSufficientFunds, decide_eq_false_iff_not]
      exact not_le.mpr hlt
    rw [hsf]
    rfl
  · intro s fid ident x d m1 m2 a hfa hlt
    have hsf : a.hasSufficientFunds x = false := by
      simp only [Account.hasSufficientFunds, decide_eq_false_iff_not]
      exact not_le.mpr hlt
    unfold processTransfer
    simp [hfa, hsf]
  · intro s fid ident x d m1 m2 hnn acc' hmem
    rcases hres : processTransfer s fid ident x d m1 m2 with ⟨r, s'⟩
    rw [hres] at hmem
    cases r with
    | err e =>
      have hs := processTransfer_err_frame hres
      subst hs
      exact hnn acc' hmem
    | ok stx rtx nsb nrb =>
      obtain ⟨a, b, hfa, hrb, hsf, hact, hab, hamt, -, -, -, -, hs'⟩ :=
        processTransfer_ok_spec hres
      subst hs'
      rw [transferCommit_accounts] at hmem
      rcases mem_updateBalanceList hmem with h2 | h2
      · rw [h2]
        exact add_nonneg (hnn b (resolveDest_mem hrb)) (le_of_lt hamt)
      · rcases mem_updateBalanceList h2 with h3 | h3
        · rw [h3]
          exact sub_nonneg.mpr hsf
        · exact hnn acc' h3

set_option maxRecDepth 4000 in
/-- Witness for C4 (amended): all five parts applied to the example store —
a withdrawal of 200 from 1000, a deposit of 200 onto 500, a rejected
withdrawal of 5000 from 500, a rejected transfer of 5000, and the example
transfer of 200 keeping both updated stored accounts non-negative. -/
theorem no_negative_balances_amended_witness :
    (0 : Rat) ≤ ({ exAccX with balance := 800 } : Account).balance ∧
    (0 : Rat) ≤ ({ exAccY with balance := 700 } : Account).balance ∧
    Account.withdraw exAccY 5000 = .error "Insufficient funds" ∧
    processTransfer exSt "acc_y" "acc_x" 5000 "x" exM1 exM2 =
      (.err "Insufficient funds", exSt) ∧
    (0 : Rat) ≤ ({ exAccX with balance := 800 } : Account).balance :=
  ⟨no_negative_balances_amended.1 exAccX { exAccX with balance := 800 } 200
     (by with_unfolding_all rfl),
   no_negative_balances_amended.2.1 exAccY { exAccY with balance := 700 } 200
     (by decide) (by with_unfolding_all rfl),
   no_negative_balances_amended.2.2.1 exAccY 5000 (by decide) (by decide),
   no_negative_balances_amended.2.2.2.1 exSt "acc_y" "acc_x" 5000 "x" exM1
     exM2 exAccY (by decide) (by decide),
   no_negative_balances_amended.2.2.2.2 exSt "acc_x" "acc_y" 200 "rent" exM1
     exM2 (by decide) { exAccX with balance := 800 }
     (by with_unfolding_all decide)⟩

end FinSim
